import Mathlib

/-!
Shallow embedding of the delfin alert-source controller
(src/delfin/api/v1/alert_source.py) and of the HPE 3PAR alert handler
(src/delfin/drivers/hpe/hpe_3par/alert_handler.py), with theorems checking
the natural-language specification against the code.
-/

namespace Delfin

/-- Modelled from the spec: the canonical alert vocabulary of the constants
module (delfin/common/constants.py is not in the source tree).  The spec fixes
an enum of seven distinct severity values and three category values; they are
rendered here as distinct string codes, as the Python constants are strings. -/
def Severity.CRITICAL : String := "Critical"

def Severity.MAJOR : String := "Major"

def Severity.MINOR : String := "Minor"

def Severity.WARNING : String := "Warning"

def Severity.FATAL : String := "Fatal"

def Severity.INFORMATIONAL : String := "Informational"

def Severity.NOT_SPECIFIED : String := "NotSpecified"

def Category.FAULT : String := "Fault"

def Category.RECOVERY : String := "Recovery"

def Category.NOT_SPECIFIED : String := "NotSpecified"

def EventType.EQUIPMENT_ALARM : String := "EquipmentAlarm"

def ClearType.AUTOMATIC : String := "Automatic"

def DEFAULT_RESOURCE_TYPE : String := "storage"

/-- Modelled from the spec: the cryptor module (delfin/cryptor) is not in the
source tree.  The spec requires only that the encrypted form of a secret
differs from the plaintext and that the read boundary can decode it again; a
prefix-marker encoding realises both properties. -/
def cryptor.encode (s : String) : String := "ENC:" ++ s

def cryptor.decode (s : String) : String := ⟨s.data.drop 4⟩

/-- Python str.lower, per character (the version strings involved are
ASCII). -/
def strToLower (s : String) : String := ⟨s.data.map Char.toLower⟩

/-- Python truthiness of an optional string (a dict.get result): a missing key
or None is falsy, and so is the empty string. -/
def truthy : Option String → Bool
  | none => false
  | some s => !(s == "")

/-- The alert-source dict handled by AlertSourceController.  A field holds
none when the key is absent or was set to None, mirroring dict.get. -/
structure AlertSource where
  storage_id : Option String := none
  version : Option String := none
  community_string : Option String := none
  username : Option String := none
  security_level : Option String := none
  engine_id : Option String := none
  auth_protocol : Option String := none
  auth_key : Option String := none
  privacy_protocol : Option String := none
  privacy_key : Option String := none
deriving DecidableEq, Repr

/-- Modelled from the spec: the error taxonomy of delfin/exception (not in the
source tree), section 7 of the design.  pyError stands for a raw Python error
(such as AttributeError) escaping the controller. -/
inductive Err where
  | invalidInput : String → Err
  | storageNotFound : Err
  | alertSourceNotFound : Err
  | connectFail : Err
  | backendException : Err
  | pyError : Err
deriving DecidableEq, Repr

/-- The externally supplied collaborators of one controller call: the engine-id
validator and connectivity-check outcomes (snmp_validator is not in the source
tree), the persisted alert source for the storage id, and whether the storage
record itself exists. -/
structure Env where
  engineIdValid : String → Bool
  connOk : AlertSource → Bool
  stored : Option AlertSource
  storageExists : Bool

/-- Modelled from the spec: snmp_validator.validate_engine_id is not in the
source tree; the spec lists a malformed engine_id as an InvalidInput error.
An absent engine id is handled by the explicit requiredness check that
follows the call in _input_check. -/
def validateEngineId (env : Env) (e : Option String) : Except Err Unit :=
  match e with
  | none => .ok ()
  | some s => if env.engineIdValid s then .ok () else .error (.invalidInput "Engine id is invalid.")

/-- Modelled from the spec: snmp_validator.validate_connectivity is not in the
source tree.  The spec describes it as the live-connectivity validation that
raises on failure and must precede any persisted write; it is not described as
transforming the record, so on success it returns the record unchanged. -/
def validateConnectivity (env : Env) (a : AlertSource) : Except Err AlertSource :=
  if env.connOk a then .ok a else .error .connectFail

/-- The minimal old trap-receiver identity built by _get_snmp_config_brief. -/
structure SnmpBrief where
  storage_id : Option String
  version : Option String
  username : Option String := none
  engine_id : Option String := none
deriving DecidableEq, Repr

/-- AlertSourceController._get_snmp_config_brief: read the persisted record;
return none when db.alert_source_get raises AlertSourceNotFound, otherwise the
brief with username and engine_id added only for SNMPv3.  Persisted records
always carry a version (the write path requires one). -/
def getSnmpConfigBrief (env : Env) : Option SnmpBrief :=
  match env.stored with
  | none => none
  | some a =>
      if strToLower (a.version.getD "") == "snmpv3" then
        some { storage_id := a.storage_id, version := a.version,
               username := a.username, engine_id := a.engine_id }
      else
        some { storage_id := a.storage_id, version := a.version }

/-- The structural/field-validation part of AlertSourceController._input_check
(everything before the final validate_connectivity call), including the
encryption of the v3 secrets and the nulling of the other versions. -/
def inputCheckStruct (env : Env) (a : AlertSource) : Except Err AlertSource :=
  match a.version with
  | none => .error .pyError
  | some ver =>
    if strToLower ver == "snmpv3" then
      match validateEngineId env a.engine_id with
      | .error e => .error e
      | .ok _ =>
        if !truthy a.username || !truthy a.security_level || !truthy a.engine_id then
          .error (.invalidInput "If snmp version is SNMPv3, then username, security_level and engine_id are required.")
        else if a.security_level == some "AuthNoPriv" || a.security_level == some "AuthPriv" then
          if !truthy a.auth_protocol || !truthy a.auth_key then
            .error (.invalidInput "If snmp version is SNMPv3 and security_level is AuthPriv or AuthNoPriv, auth_protocol and auth_key are required.")
          else if a.security_level == some "AuthPriv" then
            if !truthy a.privacy_protocol || !truthy a.privacy_key then
              .error (.invalidInput "If snmp version is SNMPv3 and security_level is AuthPriv, privacy_protocol and privacy_key are  required.")
            else
              .ok { a with auth_key := a.auth_key.map cryptor.encode,
                           privacy_key := a.privacy_key.map cryptor.encode,
                           community_string := none }
          else
            .ok { a with auth_key := a.auth_key.map cryptor.encode,
                         privacy_key := none, privacy_protocol := none,
                         community_string := none }
        else
          .ok { a with auth_key := none, auth_protocol := none,
                       privacy_key := none, privacy_protocol := none,
                       community_string := none }
    else
      if !truthy a.community_string then
        .error (.invalidInput "If snmp version is SNMPv1 or SNMPv2c, community_string is required.")
      else
        .ok { a with username := none, auth_key := none, security_level := none,
                     auth_protocol := none, privacy_protocol := none,
                     privacy_key := none, engine_id := none }

/-- The externally visible operations of one controller call, in the order in
which the code performs them. -/
inductive Event where
  | structCheck : Event
  | connCheck : Event
  | dbWrite : AlertSource → Event
  | sync : Option SnmpBrief → Option AlertSource → Event
  | dbDelete : String → Event
deriving DecidableEq, Repr

/-- AlertSourceController._input_check with its event trace: the structural
block runs first, then the final validate_connectivity call. -/
def inputCheckT (env : Env) (a : AlertSource) : List Event × Except Err AlertSource :=
  match inputCheckStruct env a with
  | .error e => ([.structCheck], .error e)
  | .ok a1 =>
    match validateConnectivity env a1 with
    | .error e => ([.structCheck, .connCheck], .error e)
    | .ok a2 => ([.structCheck, .connCheck], .ok a2)

/-- AlertSourceController.put: set storage_id, require the storage record,
run _input_check, read the old brief, write (update or create, merged into
one dbWrite event), then issue the sync rpc with old brief and new record. -/
def put (env : Env) (id : String) (body : AlertSource) : List Event × Except Err AlertSource :=
  if !env.storageExists then ([], .error .storageNotFound)
  else
    match inputCheckT env { body with storage_id := some id } with
    | (evs, .error e) => (evs, .error e)
    | (evs, .ok checked) =>
      (evs ++ [.dbWrite checked, .sync (getSnmpConfigBrief env) (some checked)], .ok checked)

/-- AlertSourceController.show: read the persisted record and return it
through the view.  The view build_alert_source (not in the source tree) only
shapes the dict, so it is the identity here; note that show never calls
_decrypt_auth_key. -/
def showAlertSource (env : Env) : Except Err AlertSource :=
  match env.stored with
  | none => .error .alertSourceNotFound
  | some a => .ok a

/-- AlertSourceController.delete: look up the old brief; if absent raise
AlertSourceNotFound with no side effect, otherwise sync the removal first and
delete the persisted record second. -/
def delete (env : Env) (id : String) : List Event × Except Err Unit :=
  match getSnmpConfigBrief env with
  | some brief => ([.sync (some brief) none, .dbDelete id], .ok ())
  | none => ([], .error .alertSourceNotFound)

/-- AlertSourceController._decrypt_auth_key: decode auth_key and privacy_key
when present (this helper is defined in the source but never called). -/
def decryptAuthKey (a : AlertSource) : AlertSource :=
  { a with
    auth_key := if truthy a.auth_key then a.auth_key.map cryptor.decode else a.auth_key,
    privacy_key := if truthy a.privacy_key then a.privacy_key.map cryptor.decode else a.privacy_key }

/-- A raw SNMP trap payload: the dict handed to AlertHandler.parse_alert.
A missing key models a key that is absent or maps to None. -/
abbrev Trap := List (String × String)

/-- dict.get on a trap payload. -/
def Trap.get (t : Trap) (k : String) : Option String :=
  (t.find? (fun p => p.1 == k)).map (fun p => p.2)

/-- Remove one key from a trap payload (used to state the field-by-field
mandatory-attribute property). -/
def Trap.removeKey (t : Trap) (k : String) : Trap :=
  t.filter (fun p => !(p.1 == k))

namespace AlertHandler

/-- AlertHandler._mandatory_alert_attributes. -/
def _mandatory_alert_attributes : List String :=
  ["component", "details", "nodeID", "severity", "timeOccurred", "id",
   "messageCode", "state", "serialNumber"]

/-- AlertHandler.SEVERITY_MAP. -/
def SEVERITY_MAP : List (String × String) :=
  [("critical", Severity.CRITICAL), ("major", Severity.MAJOR),
   ("minor", Severity.MINOR), ("degraded", Severity.WARNING),
   ("fatal", Severity.FATAL), ("info", Severity.INFORMATIONAL),
   ("debug", Severity.NOT_SPECIFIED)]

/-- AlertHandler.CATEGORY_MAP. -/
def CATEGORY_MAP : List (String × String) :=
  [("undefined", Category.NOT_SPECIFIED), ("new", Category.FAULT),
   ("acknowledged", Category.RECOVERY), ("fixed", Category.RECOVERY),
   ("removed", Category.RECOVERY), ("autofixed", Category.RECOVERY)]

/-- The fixed ssh command sent by clear_alert. -/
def hpe3par_command_removealert : String := "removealert -f "

/-- Python dict.get with default on the static lookup tables; the key itself
may be None (a dict.get result), which also yields the default. -/
def dictGet (m : List (String × String)) (k : Option String) (d : String) : String :=
  match k with
  | none => d
  | some s =>
    match m.find? (fun p => p.1 == s) with
    | some p => p.2
    | none => d

end AlertHandler

/-- The canonical alert model dict filled by the HPE 3PAR handler.  Fields
assigned from dict.get are Option String (the value may be None); fields that
are always assigned a string are plain strings.  clear_category is only put
into the dict for autofixed traps. -/
structure AlertModel where
  alert_id : Option String
  alert_name : Option String
  severity : String
  category : String
  type : String
  sequence_number : Option String
  occur_time : Option Int
  description : Option String
  resource_type : String
  location : Option String
  clear_category : Option String := none
deriving DecidableEq, Repr

/-- One maximal run of decimal digits at the front of the input. -/
def takeDigitRun (cs : List Char) : List Char × List Char :=
  (cs.takeWhile Char.isDigit, cs.dropWhile Char.isDigit)

/-- Numeric value of one decimal digit character. -/
def digitVal (c : Char) : Nat := c.toNat - 48

/-- Value of a run of decimal digit characters. -/
def digitsToNat (ds : List Char) : Nat :=
  ds.foldl (fun acc c => 10 * acc + digitVal c) 0

/-- One numeric field of the strptime pattern: a maximal digit run whose
length lies in the given bounds and whose value lies in the given range
(this matches the CPython _strptime regex for the directive because every
field here is followed by a non-digit character in the pattern). -/
def parseField (cs : List Char) (minLen maxLen lo hi : Nat) : Option (Nat × List Char) :=
  match takeDigitRun cs with
  | (ds, rest) =>
    if ds.length < minLen || maxLen < ds.length then none
    else
      if lo ≤ digitsToNat ds && digitsToNat ds ≤ hi then some (digitsToNat ds, rest)
      else none

/-- Consume one expected literal character. -/
def expectChar (c : Char) : List Char → Option (List Char)
  | x :: rest => if x == c then some rest else none
  | [] => none

/-- Consume one-or-more whitespace characters (a whitespace run in a strptime
pattern matches any nonempty whitespace run in the data). -/
def expectWs : List Char → Option (List Char)
  | x :: rest => if x.isWhitespace then some (rest.dropWhile Char.isWhitespace) else none
  | [] => none

/-- Consume an expected literal, case-insensitively (strptime compiles its
pattern with IGNORECASE). -/
def expectCI : List Char → List Char → Option (List Char)
  | [], rest => some rest
  | _ :: _, [] => none
  | a :: la, b :: rest => if a.toLower == b.toLower then expectCI la rest else none

/-- time.strptime against the fixed AlertHandler.TIME_PATTERN
(four-digit year, 1-2 digit month/day/hour/minute/second with the ranges of
the CPython directive regexes, whitespace runs, case-insensitive literal CST,
nothing left over), on the character list of the input. -/
def strptimeList (cs : List Char) : Option (Nat × Nat × Nat × Nat × Nat × Nat) :=
  match parseField cs 4 4 0 9999 with
  | none => none
  | some (y, r1) =>
  match expectChar '-' r1 with
  | none => none
  | some r2 =>
  match parseField r2 1 2 1 12 with
  | none => none
  | some (mo, r3) =>
  match expectChar '-' r3 with
  | none => none
  | some r4 =>
  match parseField r4 1 2 1 31 with
  | none => none
  | some (d, r5) =>
  match expectWs r5 with
  | none => none
  | some r6 =>
  match parseField r6 1 2 0 23 with
  | none => none
  | some (h, r7) =>
  match expectChar ':' r7 with
  | none => none
  | some r8 =>
  match parseField r8 1 2 0 59 with
  | none => none
  | some (mi, r9) =>
  match expectChar ':' r9 with
  | none => none
  | some r10 =>
  match parseField r10 1 2 0 61 with
  | none => none
  | some (sec, r11) =>
  match expectWs r11 with
  | none => none
  | some r12 =>
  match expectCI ['C', 'S', 'T'] r12 with
  | none => none
  | some r13 => if r13.isEmpty then some (y, mo, d, h, mi, sec) else none

def strptimeCST (s : String) : Option (Nat × Nat × Nat × Nat × Nat × Nat) :=
  strptimeList s.data

/-- Days between 1970-01-01 and the given civil date (standard era-based
civil-calendar arithmetic; the year is shifted by 400 so every intermediate
quantity stays a natural number).  Out-of-range day numbers normalise
linearly, exactly as mktime normalises a struct_tm. -/
def daysFromCivil (y m d : Nat) : Int :=
  (fun (y' : Nat) =>
    (fun (era yoe : Nat) =>
      (fun (doy : Nat) =>
        ((era * 146097 + yoe * 365 + yoe / 4 + doy : Nat) : Int)
          - ((yoe / 100 : Nat) : Int) - 146097 - 719468)
        ((153 * ((m + 9) % 12) + 2) / 5 + (d - 1)))
      (y' / 400) (y' % 400))
    (if m ≤ 2 then y + 400 - 1 else y + 400)

/-- time.mktime of the parsed struct_tm, in seconds.  mktime interprets the
tuple in the local timezone of the host; utcOffset is that zone's offset east
of UTC in seconds (0 for a UTC host). -/
def mktimeSec (utcOffset : Int) (y mo d h mi s : Nat) : Int :=
  daysFromCivil y mo d * 86400 + h * 3600 + mi * 60 + s - utcOffset

namespace AlertHandler

/-- AlertHandler.get_time_stamp: strptime against TIME_PATTERN, then
int(mktime * 1000); any failure is caught and leaves the timestamp None. -/
def get_time_stamp (utcOffset : Int) (time_str : Option String) : Option Int :=
  match time_str with
  | none => none
  | some s =>
    match strptimeCST s with
    | none => none
    | some (y, mo, d, h, mi, sec) => some (mktimeSec utcOffset y mo d h mi sec * 1000)

/-- The model-filling block of AlertHandler.parse_alert (the body of its try
block): every access is a dict.get with default and get_time_stamp swallows
its own failures, so the block is total and the except-branch is dead. -/
def parsedModel (utcOffset : Int) (alert : Trap) : AlertModel :=
  { alert_id := alert.get "messageCode"
    alert_name := alert.get "messageCode"
    severity := dictGet SEVERITY_MAP (alert.get "severity") Severity.NOT_SPECIFIED
    category := dictGet CATEGORY_MAP (alert.get "state") Category.NOT_SPECIFIED
    type := EventType.EQUIPMENT_ALARM
    sequence_number := alert.get "id"
    occur_time := get_time_stamp utcOffset (alert.get "timeOccurred")
    description := alert.get "details"
    resource_type := DEFAULT_RESOURCE_TYPE
    location := alert.get "component"
    clear_category :=
      if alert.get "state" == some "autofixed" then some ClearType.AUTOMATIC else none }

/-- AlertHandler.parse_alert: the mandatory-attribute loop raises InvalidInput
at the first missing-or-falsy attribute, then the model is filled. -/
def parse_alert (utcOffset : Int) (alert : Trap) : Except Err AlertModel :=
  match _mandatory_alert_attributes.find? (fun attr => !truthy (alert.get attr)) with
  | some attr =>
    .error (.invalidInput ("Mandatory information " ++ attr ++ " missing in alert message. "))
  | none => .ok (parsedModel utcOffset alert)

/-- AlertHandler.clear_alert.  The alert argument's content is never read
(the command is the bare removealert constant); execRaises tells whether
sshclient.doexec raises.  The first component lists the commands sent. -/
def clear_alert (alert : Option Trap) (sshclientPresent : Bool) (execRaises : Bool) :
    List String × Except Err String :=
  match alert, sshclientPresent with
  | some _, true =>
    if execRaises then ([hpe3par_command_removealert], .error .backendException)
    else ([hpe3par_command_removealert], .ok "Success")
  | _, _ => ([], .ok "Failed")

end AlertHandler

/-- The eight field accumulators of the list_alerts text parser, all reset to
the empty string at the start and after every flush. -/
structure AccState where
  message_code : String := ""
  event_type : String := ""
  severity : String := ""
  state : String := ""
  alarm_id : String := ""
  occur_time : String := ""
  alert_message : String := ""
  component : String := ""
deriving DecidableEq, Repr

/-- The full parser state: the accumulators plus the alert list built so far. -/
structure PState where
  acc : AccState
  alerts : List AlertModel
deriving DecidableEq, Repr

/-- The inline severity vocabulary of list_alerts (an if/elif chain distinct
from SEVERITY_MAP); an unmatched value leaves the accumulator unchanged. -/
def sevMapInline (v old : String) : String :=
  if v == "Major" then Severity.MAJOR
  else if v == "Minor" then Severity.MINOR
  else if v == "Critical" then Severity.CRITICAL
  else if v == "Degraded" then Severity.WARNING
  else if v == "Fatal" then Severity.FATAL
  else if v == "Informational" then Severity.INFORMATIONAL
  else if v == "Debug" then Severity.NOT_SPECIFIED
  else old

/-- Whether the second character list starts with the first. -/
def startsWithChars : List Char → List Char → Bool
  | [], _ => true
  | _ :: _, [] => false
  | a :: la, b :: lb => a == b && startsWithChars la lb

/-- Split a character list at the first occurrence of the separator (the
semantics of Python str.split with maxsplit one): the part before it and the
untouched remainder after it, or none when the separator does not occur. -/
def findSplit (sep : List Char) : List Char → Option (List Char × List Char)
  | [] => none
  | c :: rest =>
    if startsWithChars sep (c :: rest) then some ([], (c :: rest).drop sep.length)
    else
      match findSplit sep rest with
      | some (pre, post) => some (c :: pre, post)
      | none => none

/-- Python str.replace of every space by the empty string. -/
def removeSpaces (cs : List Char) : List Char := cs.filter (fun c => !(c == ' '))

/-- The ": " separator of the showalert output lines. -/
def sepCS : List Char := [':', ' ']

/-- strinfo[0] of a line: the text before the first ": " separator (the whole
line when there is none), with all spaces removed. -/
def keyOf (l : String) : String :=
  match findSplit sepCS l.data with
  | some (pre, _) => ⟨removeSpaces pre⟩
  | none => ⟨removeSpaces l.data⟩

/-- strinfo[1] of a line: the remainder after the first ": " separator, or
none when the line has no separator (where the source would hit IndexError). -/
def valTailOf (l : String) : Option String :=
  match findSplit sepCS l.data with
  | some (_, post) => some ⟨post⟩
  | none => none

/-- Python str.split on every newline, keeping empty pieces. -/
def splitLinesAux : List Char → List Char → List (List Char)
  | [], cur => [cur.reverse]
  | c :: rest, cur =>
    if c == '\n' then cur.reverse :: splitLinesAux rest []
    else splitLinesAux rest (c :: cur)

def splitLines (s : String) : List String :=
  (splitLinesAux s.data []).map (fun cs => ⟨cs⟩)

/-- The alert model flushed when the terminal Component key is seen, built
from the current accumulators. -/
def flushModel (utcOffset : Int) (a : AccState) : AlertModel :=
  { alert_id := some a.message_code
    alert_name := some a.event_type
    severity := a.severity
    category := a.state
    type := EventType.EQUIPMENT_ALARM
    sequence_number := some a.alarm_id
    occur_time := AlertHandler.get_time_stamp utcOffset (some a.occur_time)
    description := some a.alert_message
    resource_type := DEFAULT_RESOURCE_TYPE
    location := some a.component }

/-- The key dispatch of the list_alerts loop body on the split pieces of one
line: a recognized key updates its accumulator (reading strinfo[1], hence
IndexError, modelled as the error case, when the separator is missing); the
Component key additionally flushes a record and resets every accumulator; an
unrecognized key is ignored. -/
def procLineCore (utcOffset : Int) (st : PState) (k : String) (v? : Option String) :
    Except Unit PState :=
  if k == "Id" then
    match v? with
    | none => .error ()
    | some v => .ok { st with acc := { st.acc with alarm_id := v } }
  else if k == "State" then
    match v? with
    | none => .error ()
    | some v =>
      .ok { st with acc := { st.acc with state := if v == "New" then Category.FAULT else st.acc.state } }
  else if k == "MessageCode" then
    match v? with
    | none => .error ()
    | some v => .ok { st with acc := { st.acc with message_code := v } }
  else if k == "Time" then
    match v? with
    | none => .error ()
    | some v => .ok { st with acc := { st.acc with occur_time := v } }
  else if k == "Severity" then
    match v? with
    | none => .error ()
    | some v => .ok { st with acc := { st.acc with severity := sevMapInline v st.acc.severity } }
  else if k == "Type" then
    match v? with
    | none => .error ()
    | some v => .ok { st with acc := { st.acc with event_type := v } }
  else if k == "Message" then
    match v? with
    | none => .error ()
    | some v => .ok { st with acc := { st.acc with alert_message := v } }
  else if k == "Component" then
    match v? with
    | none => .error ()
    | some v =>
      .ok { acc := {}, alerts := st.alerts ++ [flushModel utcOffset { st.acc with component := v }] }
  else .ok st

/-- One line of the showalert -d output, as handled by the loop body of
AlertHandler.list_alerts: blank lines are skipped, every other line is split
at the first separator and dispatched on its space-stripped key. -/
def procLine (utcOffset : Int) (st : PState) (line : String) : Except Unit PState :=
  if line == "" then .ok st
  else procLineCore utcOffset st (keyOf line) (valTailOf line)

/-- The loop of list_alerts over the split lines. -/
def procLines (utcOffset : Int) : List String → PState → Except Unit PState
  | [], st => .ok st
  | l :: ls, st =>
    match procLine utcOffset st l with
    | .error e => .error e
    | .ok st1 => procLines utcOffset ls st1

/-- The parsing stage of AlertHandler.list_alerts on the raw ssh response
text: split on newlines, run the accumulator loop, return the alert list. -/
def listAlertsParse (utcOffset : Int) (res : String) : Except Unit (List AlertModel) :=
  (procLines utcOffset (splitLines res) { acc := {}, alerts := [] }).map (fun st => st.alerts)

namespace AlertHandler

/-- AlertHandler.list_alerts: a failing ssh call raises
StorageBackendException; any exception inside the parsing loop (IndexError)
is caught by the outer handler and also raised as StorageBackendException. -/
def list_alerts (utcOffset : Int) (sshResult : Except Unit String) :
    Except Err (List AlertModel) :=
  match sshResult with
  | .error _ => .error .backendException
  | .ok text =>
    match listAlertsParse utcOffset text with
    | .error _ => .error .backendException
    | .ok l => .ok l

end AlertHandler

/-- A complete record block of the ssh output: body lines followed by one
terminal Component line. -/
structure Block where
  body : List String
  term : String

/-- A line the loop consumes without flushing and without error: blank, or
an unrecognized key, or a recognized non-terminal key with a separator. -/
def recognizedKeys : List String :=
  ["Id", "State", "MessageCode", "Time", "Severity", "Type", "Message", "Component"]

def isBodyLine (l : String) : Bool :=
  l == "" || !recognizedKeys.contains (keyOf l) ||
    (!(keyOf l == "Component") && (valTailOf l).isSome)

def isTermLine (l : String) : Bool :=
  keyOf l == "Component" && (valTailOf l).isSome

def ValidBlock (b : Block) : Prop :=
  (∀ l ∈ b.body, isBodyLine l = true) ∧ isTermLine b.term = true

instance (b : Block) : Decidable (ValidBlock b) := by
  unfold ValidBlock; infer_instance

/-- The accumulator update of one body line (the loop body restricted to the
non-flushing cases; the timezone and alert list are irrelevant there). -/
def accStep (a : AccState) (l : String) : AccState :=
  match procLine 0 { acc := a, alerts := [] } l with
  | .ok st => st.acc
  | .error _ => a

/-- The record a block yields when parsed in isolation: fold its own body
lines over empty accumulators, then flush at its terminal line. -/
def recordOfBlock (utcOffset : Int) (b : Block) : AlertModel :=
  flushModel utcOffset { b.body.foldl accStep {} with component := (valTailOf b.term).getD "" }

def blockLines (b : Block) : List String := b.body ++ [b.term]

/-- The inline severity vocabulary of list_alerts paired with its canonical
values, in source order. -/
def inlineSevPairs : List (String × String) :=
  [("Major", Severity.MAJOR), ("Minor", Severity.MINOR),
   ("Critical", Severity.CRITICAL), ("Degraded", Severity.WARNING),
   ("Fatal", Severity.FATAL), ("Informational", Severity.INFORMATIONAL),
   ("Debug", Severity.NOT_SPECIFIED)]

/-- Two-character zero-padded decimal rendering (for n below 100). -/
def pad2 (n : Nat) : List Char :=
  [Char.ofNat (48 + n / 10), Char.ofNat (48 + n % 10)]

/-- Four-character zero-padded decimal rendering (for n below 10000). -/
def pad4 (n : Nat) : List Char :=
  [Char.ofNat (48 + n / 1000), Char.ofNat (48 + n / 100 % 10),
   Char.ofNat (48 + n / 10 % 10), Char.ofNat (48 + n % 10)]

/-- The canonical vendor rendering of the fixed TIME_PATTERN, used to state
the parse round-trip. -/
def formatTimeCST (y mo d h mi s : Nat) : String :=
  ⟨pad4 y ++ '-' :: (pad2 mo ++ '-' :: (pad2 d ++ ' ' ::
    (pad2 h ++ ':' :: (pad2 mi ++ ':' :: (pad2 s ++ ' ' :: ('C' :: 'S' :: 'T' :: []))))))⟩

/-- A controller environment whose external checks succeed and whose database
holds the given alert source. -/
def testEnv (st : Option AlertSource) : Env :=
  { engineIdValid := fun _ => true, connOk := fun _ => true,
    stored := st, storageExists := true }

/-- The SNMPv2c request body of the end-to-end scenario in the spec. -/
def bodyV2c : AlertSource :=
  { version := some "SNMPv2c", community_string := some "public" }

/-- The SNMPv3 AuthPriv request body of the end-to-end scenario in the spec. -/
def bodyV3 : AlertSource :=
  { version := some "SNMPv3", username := some "u", security_level := some "AuthPriv",
    engine_id := some "E1", auth_protocol := some "MD5", auth_key := some "k1",
    privacy_protocol := some "DES", privacy_key := some "k2" }

/-- The record the controller persists for bodyV3. -/
def storedV3 : AlertSource :=
  { storage_id := some "S1", version := some "SNMPv3", username := some "u",
    security_level := some "AuthPriv", engine_id := some "E1",
    auth_protocol := some "MD5", auth_key := some (cryptor.encode "k1"),
    privacy_protocol := some "DES", privacy_key := some (cryptor.encode "k2") }

/-- The record the controller persists for bodyV2c. -/
def storedV2c : AlertSource :=
  { storage_id := some "S1", version := some "SNMPv2c",
    community_string := some "public" }

/-- Two complete well-formed ssh record blocks, used as concrete inputs. -/
def blocksTwo : List Block :=
  [{ body := ["Id: 1", "Severity: Major"], term := "Component: c1" },
   { body := ["Id: 2", "State: New"], term := "Component: c2" }]

/-- An otherwise-valid trap payload carrying every mandatory attribute. -/
def trapOK : Trap :=
  [("component", "c"), ("details", "d"), ("nodeID", "n"), ("severity", "critical"),
   ("timeOccurred", "t"), ("id", "1"), ("messageCode", "m"), ("state", "new"),
   ("serialNumber", "s")]

deriving instance DecidableEq for Except

theorem cryptor_encode_ne (s : String) : cryptor.encode s ≠ s := by
  intro h
  have h2 : (cryptor.encode s).length = s.length := congrArg String.length h
  rw [cryptor.encode, String.length_append] at h2
  have h3 : "ENC:".length = 4 := rfl
  omega

theorem put_noStorage (env : Env) (id : String) (body : AlertSource)
    (h : env.storageExists = false) :
    put env id body = ([], .error .storageNotFound) := by
  unfold put
  rw [h]
  rfl

theorem put_structErr (env : Env) (id : String) (body : AlertSource) (e : Err)
    (hs : env.storageExists = true)
    (h : inputCheckStruct env { body with storage_id := some id } = .error e) :
    put env id body = ([.structCheck], .error e) := by
  unfold put inputCheckT
  rw [hs, h]
  rfl

theorem put_connErr (env : Env) (id : String) (body : AlertSource) (a1 : AlertSource)
    (hs : env.storageExists = true)
    (h : inputCheckStruct env { body with storage_id := some id } = .ok a1)
    (hc : env.connOk a1 = false) :
    put env id body = ([.structCheck, .connCheck], .error .connectFail) := by
  unfold put inputCheckT validateConnectivity
  rw [hs, h]
  simp [hc]

theorem put_ok (env : Env) (id : String) (body : AlertSource) (a1 : AlertSource)
    (hs : env.storageExists = true)
    (h : inputCheckStruct env { body with storage_id := some id } = .ok a1)
    (hc : env.connOk a1 = true) :
    put env id body =
      ([.structCheck, .connCheck, .dbWrite a1, .sync (getSnmpConfigBrief env) (some a1)],
        .ok a1) := by
  unfold put inputCheckT validateConnectivity
  rw [hs, h]
  simp [hc]

/-- C10: clear_alert returns Failed with no command when the alert or the ssh
client is missing; otherwise it sends exactly the fixed removealert command
with no sequence number appended, returns Success whenever execution does not
raise, and raises StorageBackendException exactly when it does. -/
theorem C10_clear_alert :
    ∀ (alert : Option Trap) (ssh execRaises : Bool),
      ((alert = none ∨ ssh = false) →
        AlertHandler.clear_alert alert ssh execRaises = ([], .ok "Failed")) ∧
      (∀ t, alert = some t → ssh = true →
        AlertHandler.clear_alert alert ssh execRaises =
          ([AlertHandler.hpe3par_command_removealert],
            if execRaises then .error .backendException else .ok "Success")) := by
  intro alert ssh execRaises
  constructor
  · rintro (rfl | rfl)
    · cases ssh <;> rfl
    · cases alert <;> rfl
  · rintro t rfl rfl
    cases execRaises <;> rfl

theorem C10_clear_alert_witness :
    AlertHandler.clear_alert none true true = ([], .ok "Failed") ∧
    AlertHandler.clear_alert (some []) true false =
      ([AlertHandler.hpe3par_command_removealert], .ok "Success") ∧
    AlertHandler.clear_alert (some []) true true =
      ([AlertHandler.hpe3par_command_removealert], .error .backendException) :=
  ⟨(C10_clear_alert none true true).1 (Or.inl rfl),
   (C10_clear_alert (some []) true false).2 [] rfl rfl,
   (C10_clear_alert (some []) true true).2 [] rfl rfl⟩

/-- C3: delete raises AlertSourceNotFound with no side effects (no sync call,
no database change) when no persisted record exists; when one exists, it
issues the sync removal (old brief, new none) first and deletes the persisted
record second. -/
theorem C3_delete_order_and_notfound :
    ∀ (env : Env) (id : String),
      (env.stored = none → delete env id = ([], .error .alertSourceNotFound)) ∧
      (∀ a, env.stored = some a →
        ∃ b, getSnmpConfigBrief env = some b ∧
          delete env id = ([.sync (some b) none, .dbDelete id], .ok ())) := by
  intro env id
  constructor
  · intro h
    unfold delete getSnmpConfigBrief
    rw [h]
  · intro a h
    unfold delete getSnmpConfigBrief
    rw [h]
    by_cases hv : (strToLower (a.version.getD "") == "snmpv3") = true <;> simp [hv]

theorem C3_delete_order_and_notfound_witness :
    delete (testEnv none) "S1" = ([], .error .alertSourceNotFound) ∧
    ∃ b, getSnmpConfigBrief (testEnv (some storedV2c)) = some b ∧
      delete (testEnv (some storedV2c)) "S1" =
        ([.sync (some b) none, .dbDelete "S1"], .ok ()) :=
  ⟨(C3_delete_order_and_notfound (testEnv none) "S1").1 rfl,
   (C3_delete_order_and_notfound (testEnv (some storedV2c)) "S1").2 storedV2c rfl⟩

/-- C2 (code bug evidence): after a PUT that supplied plaintext secrets k1
and k2, show returns the persisted record with auth_key and privacy_key still
encrypted — show never calls _decrypt_auth_key, so the caller does not get
the original plaintext back. -/
theorem C2_show_returns_encrypted_secrets :
    (put (testEnv none) "S1" bodyV3).2 = .ok storedV3 ∧
    showAlertSource (testEnv (some storedV3)) = .ok storedV3 ∧
    storedV3.auth_key = some (cryptor.encode "k1") ∧
    storedV3.auth_key ≠ some "k1" ∧
    storedV3.privacy_key = some (cryptor.encode "k2") ∧
    storedV3.privacy_key ≠ some "k2" ∧
    decryptAuthKey storedV3 ≠ storedV3 := by
  refine ⟨by decide, rfl, rfl, by decide, rfl, by decide, by decide⟩

/-- C1 (counterexample): an accepted SNMPv2c PUT persists community_string
exactly as supplied — the stored secret equals the plaintext and is not the
cryptor encoding of the input. -/
theorem C1_put_community_string_plaintext :
    (put (testEnv none) "S1" bodyV2c).2 = .ok storedV2c ∧
    Event.dbWrite storedV2c ∈ (put (testEnv none) "S1" bodyV2c).1 ∧
    bodyV2c.community_string = some "public" ∧
    storedV2c.community_string = some "public" ∧
    storedV2c.community_string ≠ some (cryptor.encode "public") := by
  refine ⟨by decide, by decide, rfl, rfl, by decide⟩

/-- C4: in every PUT execution the trace is either the full ordered sequence
structural check, connectivity check, database write, sync call (on success),
or a failing prefix of it that contains no database write and no sync call. -/
theorem C4_put_ordering :
    ∀ (env : Env) (id : String) (body : AlertSource),
      (∃ w, (put env id body).2 = .ok w ∧
        (put env id body).1 =
          [.structCheck, .connCheck, .dbWrite w,
           .sync (getSnmpConfigBrief env) (some w)]) ∨
      ((∃ e, (put env id body).2 = .error e) ∧
        ((put env id body).1 = [] ∨ (put env id body).1 = [.structCheck] ∨
          (put env id body).1 = [.structCheck, .connCheck])) := by
  intro env id body
  cases hs : env.storageExists with
  | false =>
    rw [put_noStorage env id body hs]
    exact Or.inr ⟨⟨.storageNotFound, rfl⟩, Or.inl rfl⟩
  | true =>
    cases hA : inputCheckStruct env { body with storage_id := some id } with
    | error e =>
      rw [put_structErr env id body e hs hA]
      exact Or.inr ⟨⟨e, rfl⟩, Or.inr (Or.inl rfl)⟩
    | ok a1 =>
      cases hc : env.connOk a1 with
      | false =>
        rw [put_connErr env id body a1 hs hA hc]
        exact Or.inr ⟨⟨.connectFail, rfl⟩, Or.inr (Or.inr rfl)⟩
      | true =>
        rw [put_ok env id body a1 hs hA hc]
        exact Or.inl ⟨a1, rfl, rfl⟩


theorem inputCheckStruct_ok_fields (env : Env) (a w : AlertSource)
    (h : inputCheckStruct env a = .ok w) :
    (w.auth_key = a.auth_key.map cryptor.encode ∨ w.auth_key = none) ∧
    (w.privacy_key = a.privacy_key.map cryptor.encode ∨ w.privacy_key = none) ∧
    (w.community_string = a.community_string ∨ w.community_string = none) := by
  unfold inputCheckStruct at h
  repeat' split at h
  all_goals
    first
      | exact Except.noConfusion h
      | (rw [Except.ok.injEq] at h
         subst h
         refine ⟨?_, ?_, ?_⟩ <;> simp)

/-- C1 (amended): every v3 secret present in the persisted record is the
cryptor encoding of the caller's plaintext and differs from it; a persisted
community_string is exactly the caller's plaintext. -/
theorem C1_put_secrets_encrypted_amended :
    ∀ (env : Env) (id : String) (body : AlertSource) (w : AlertSource),
      Event.dbWrite w ∈ (put env id body).1 →
      (∀ k, w.auth_key = some k →
        ∃ p, body.auth_key = some p ∧ k = cryptor.encode p ∧ k ≠ p) ∧
      (∀ k, w.privacy_key = some k →
        ∃ p, body.privacy_key = some p ∧ k = cryptor.encode p ∧ k ≠ p) ∧
      (∀ c, w.community_string = some c → body.community_string = some c) := by
  intro env id body w hmem
  cases hs : env.storageExists with
  | false =>
    rw [put_noStorage env id body hs] at hmem
    simp at hmem
  | true =>
    cases hA : inputCheckStruct env { body with storage_id := some id } with
    | error e =>
      rw [put_structErr env id body e hs hA] at hmem
      simp at hmem
    | ok a1 =>
      cases hc : env.connOk a1 with
      | false =>
        rw [put_connErr env id body a1 hs hA hc] at hmem
        simp at hmem
      | true =>
        rw [put_ok env id body a1 hs hA hc] at hmem
        simp at hmem
        subst hmem
        have hf := inputCheckStruct_ok_fields env _ _ hA
        refine ⟨?_, ?_, ?_⟩
        · intro k hk
          rcases hf.1 with hak | hak
          · rw [hak] at hk
            rcases Option.map_eq_some'.mp hk with ⟨p, hp, hpe⟩
            exact ⟨p, hp, hpe.symm, hpe ▸ cryptor_encode_ne p⟩
          · rw [hak] at hk; exact absurd hk (by simp)
        · intro k hk
          rcases hf.2.1 with hak | hak
          · rw [hak] at hk
            rcases Option.map_eq_some'.mp hk with ⟨p, hp, hpe⟩
            exact ⟨p, hp, hpe.symm, hpe ▸ cryptor_encode_ne p⟩
          · rw [hak] at hk; exact absurd hk (by simp)
        · intro c hcs
          rcases hf.2.2 with hck | hck
          · rw [hck] at hcs; exact hcs
          · rw [hck] at hcs; exact absurd hcs (by simp)

theorem C1_put_secrets_encrypted_amended_witness :
    ∃ p, bodyV3.auth_key = some p ∧ cryptor.encode "k1" = cryptor.encode p ∧
      cryptor.encode "k1" ≠ p :=
  (C1_put_secrets_encrypted_amended (testEnv none) "S1" bodyV3 storedV3
    (by decide)).1 (cryptor.encode "k1") rfl

theorem Trap.removeKey_get (t : Trap) (k : String) : (t.removeKey k).get k = none := by
  induction t with
  | nil => rfl
  | cons p ts ih =>
    simp only [Trap.removeKey, Trap.get, List.filter_cons] at *
    by_cases h : (!(p.1 == k)) = true
    · rw [if_pos h]
      rw [List.find?_cons_of_neg]
      · exact ih
      · simpa using h
    · rw [if_neg h]
      exact ih

theorem parse_alert_invalid_iff (off : Int) (alert : Trap) :
    (∃ msg, AlertHandler.parse_alert off alert = .error (Err.invalidInput msg)) ↔
    ∃ attr ∈ AlertHandler._mandatory_alert_attributes, truthy (alert.get attr) = false := by
  unfold AlertHandler.parse_alert
  cases hf : AlertHandler._mandatory_alert_attributes.find?
      (fun attr => !truthy (alert.get attr)) with
  | some attr =>
    constructor
    · intro _
      refine ⟨attr, List.mem_of_find?_eq_some hf, ?_⟩
      have h2 := List.find?_some hf
      simpa using h2
    · intro _
      exact ⟨_, rfl⟩
  | none =>
    constructor
    · rintro ⟨msg, hmsg⟩
      exact Except.noConfusion hmsg
    · rintro ⟨attr, hmem, htr⟩
      have h2 := List.find?_eq_none.mp hf attr hmem
      simp [htr] at h2

/-- C5: parse_alert raises InvalidInput iff some mandatory trap attribute is
missing or empty; removing any single mandatory field from an otherwise-valid
trap triggers the failure, and the intact trap parses successfully. -/
theorem C5_parse_alert_invalid_iff_missing :
    (∀ (off : Int) (alert : Trap),
      (∃ msg, AlertHandler.parse_alert off alert = .error (Err.invalidInput msg)) ↔
      ∃ attr ∈ AlertHandler._mandatory_alert_attributes, truthy (alert.get attr) = false) ∧
    (∀ (off : Int) (alert : Trap) (attr : String),
      attr ∈ AlertHandler._mandatory_alert_attributes →
      (∀ a ∈ AlertHandler._mandatory_alert_attributes, truthy (alert.get a) = true) →
      (∃ msg, AlertHandler.parse_alert off (alert.removeKey attr) =
        .error (Err.invalidInput msg)) ∧
      ∃ m, AlertHandler.parse_alert off alert = .ok m) := by
  refine ⟨parse_alert_invalid_iff, ?_⟩
  intro off alert attr hmem hall
  constructor
  · refine (parse_alert_invalid_iff off (alert.removeKey attr)).mpr ⟨attr, hmem, ?_⟩
    rw [Trap.removeKey_get]
    rfl
  · unfold AlertHandler.parse_alert
    cases hf : AlertHandler._mandatory_alert_attributes.find?
        (fun a => !truthy (alert.get a)) with
    | some attr2 =>
      have hm2 := hall attr2 (List.mem_of_find?_eq_some hf)
      have h2 := List.find?_some hf
      rw [hm2] at h2
      exact absurd h2 (by simp)
    | none =>
      exact ⟨_, rfl⟩

theorem C5_parse_alert_invalid_iff_missing_witness :
    (∃ msg, AlertHandler.parse_alert 0 (trapOK.removeKey "details") =
      .error (Err.invalidInput msg)) ∧
    ∃ m, AlertHandler.parse_alert 0 trapOK = .ok m :=
  C5_parse_alert_invalid_iff_missing.2 0 trapOK "details" (by decide) (by decide)
theorem parse_alert_ok_model (off : Int) (alert : Trap) (m : AlertModel)
    (h : AlertHandler.parse_alert off alert = .ok m) :
    m = AlertHandler.parsedModel off alert := by
  unfold AlertHandler.parse_alert at h
  cases hf : AlertHandler._mandatory_alert_attributes.find?
      (fun attr => !truthy (alert.get attr)) with
  | some attr =>
    rw [hf] at h
    exact Except.noConfusion h
  | none =>
    rw [hf] at h
    injection h with h2
    exact h2.symm

theorem dictGet_not_mem (m : List (String × String)) (k d : String)
    (h : k ∉ m.map Prod.fst) : AlertHandler.dictGet m (some k) d = d := by
  induction m with
  | nil => rfl
  | cons p ps ih =>
    rw [List.map_cons, List.mem_cons] at h
    push_neg at h
    simp only [AlertHandler.dictGet] at *
    rw [List.find?_cons_of_neg]
    · exact ih h.2
    · simp
      exact (Ne.symm h.1)

theorem parse_alert_ok_of_mandatory (off : Int) (alert : Trap)
    (hall : ∀ a ∈ AlertHandler._mandatory_alert_attributes, truthy (alert.get a) = true) :
    AlertHandler.parse_alert off alert = .ok (AlertHandler.parsedModel off alert) := by
  unfold AlertHandler.parse_alert
  cases hf : AlertHandler._mandatory_alert_attributes.find?
      (fun a => !truthy (alert.get a)) with
  | some attr2 =>
    have hm2 := hall attr2 (List.mem_of_find?_eq_some hf)
    have h2 := List.find?_some hf
    rw [hm2] at h2
    exact absurd h2 (by simp)
  | none => rfl

/-- C6 (counterexample): in list_alerts, a present-but-unknown severity value
does not map to NOT_SPECIFIED — the delivered record carries the reset value,
the empty string. -/
theorem C6_list_alerts_unknown_severity_empty :
    (∃ r, listAlertsParse 0 "Severity: Strange\nComponent: c1" = .ok [r] ∧
      r.severity = "" ∧ r.severity ≠ Severity.NOT_SPECIFIED) ∧
    "Strange" ∉ AlertHandler.SEVERITY_MAP.map Prod.fst ∧
    "Strange" ∉ inlineSevPairs.map Prod.fst := by
  refine ⟨⟨{ alert_id := some "", alert_name := some "", severity := "",
             category := "", type := EventType.EQUIPMENT_ALARM,
             sequence_number := some "", occur_time := none,
             description := some "", resource_type := DEFAULT_RESOURCE_TYPE,
             location := some "c1" }, by decide, rfl, by decide⟩, by decide, by decide⟩

/-- C6 (amended): parse_alert maps every vendor severity and state in the
static tables to exactly its canonical value and every present-but-unknown
value to NOT_SPECIFIED without raising; list_alerts maps its inline
capitalized vocabulary exactly, while a present-but-unknown severity or state
merely leaves the accumulator unchanged (the empty string at a block start),
without raising and without blocking delivery of the alert. -/
theorem C6_severity_category_mapping_amended :
    (∀ (off : Int) (alert : Trap) (m : AlertModel) (k v : String),
      AlertHandler.parse_alert off alert = .ok m →
      alert.get "severity" = some k → (k, v) ∈ AlertHandler.SEVERITY_MAP →
      m.severity = v) ∧
    (∀ (off : Int) (alert : Trap) (m : AlertModel) (s : String),
      AlertHandler.parse_alert off alert = .ok m →
      alert.get "severity" = some s → s ∉ AlertHandler.SEVERITY_MAP.map Prod.fst →
      m.severity = Severity.NOT_SPECIFIED) ∧
    (∀ (off : Int) (alert : Trap) (m : AlertModel) (k v : String),
      AlertHandler.parse_alert off alert = .ok m →
      alert.get "state" = some k → (k, v) ∈ AlertHandler.CATEGORY_MAP →
      m.category = v) ∧
    (∀ (off : Int) (alert : Trap) (m : AlertModel) (s : String),
      AlertHandler.parse_alert off alert = .ok m →
      alert.get "state" = some s → s ∉ AlertHandler.CATEGORY_MAP.map Prod.fst →
      m.category = Category.NOT_SPECIFIED) ∧
    (∀ (off : Int) (alert : Trap),
      (∀ a ∈ AlertHandler._mandatory_alert_attributes, truthy (alert.get a) = true) →
      AlertHandler.parse_alert off alert = .ok (AlertHandler.parsedModel off alert)) ∧
    (∀ kv ∈ inlineSevPairs, ∀ (off : Int) (st : PState),
      procLine off st ("Severity: " ++ kv.1) =
        .ok { st with acc := { st.acc with severity := kv.2 } }) ∧
    (∀ (off : Int) (st : PState),
      procLine off st "State: New" =
        .ok { st with acc := { st.acc with state := Category.FAULT } }) ∧
    (∀ (off : Int) (st : PState) (v : String), v ∉ inlineSevPairs.map Prod.fst →
      procLine off st ("Severity: " ++ v) = .ok st) ∧
    (∀ (off : Int) (st : PState) (v : String), v ≠ "New" →
      procLine off st ("State: " ++ v) = .ok st) := by
  refine ⟨?_, ?_, ?_, ?_, parse_alert_ok_of_mandatory, ?_, ?_, ?_, ?_⟩
  · intro off alert m k v hok hsev hmem
    rw [parse_alert_ok_model off alert m hok]
    show AlertHandler.dictGet AlertHandler.SEVERITY_MAP (alert.get "severity")
      Severity.NOT_SPECIFIED = v
    rw [hsev]
    simp only [AlertHandler.SEVERITY_MAP, List.mem_cons, Prod.mk.injEq,
      List.mem_singleton, List.not_mem_nil, or_false] at hmem
    rcases hmem with ⟨rfl, rfl⟩ | ⟨rfl, rfl⟩ | ⟨rfl, rfl⟩ | ⟨rfl, rfl⟩ |
      ⟨rfl, rfl⟩ | ⟨rfl, rfl⟩ | ⟨rfl, rfl⟩ <;> rfl
  · intro off alert m s hok hsev hnm
    rw [parse_alert_ok_model off alert m hok]
    show AlertHandler.dictGet AlertHandler.SEVERITY_MAP (alert.get "severity")
      Severity.NOT_SPECIFIED = Severity.NOT_SPECIFIED
    rw [hsev]
    exact dictGet_not_mem _ _ _ hnm
  · intro off alert m k v hok hst hmem
    rw [parse_alert_ok_model off alert m hok]
    show AlertHandler.dictGet AlertHandler.CATEGORY_MAP (alert.get "state")
      Category.NOT_SPECIFIED = v
    rw [hst]
    simp only [AlertHandler.CATEGORY_MAP, List.mem_cons, Prod.mk.injEq,
      List.mem_singleton, List.not_mem_nil, or_false] at hmem
    rcases hmem with ⟨rfl, rfl⟩ | ⟨rfl, rfl⟩ | ⟨rfl, rfl⟩ | ⟨rfl, rfl⟩ |
      ⟨rfl, rfl⟩ | ⟨rfl, rfl⟩ <;> rfl
  · intro off alert m s hok hst hnm
    rw [parse_alert_ok_model off alert m hok]
    show AlertHandler.dictGet AlertHandler.CATEGORY_MAP (alert.get "state")
      Category.NOT_SPECIFIED = Category.NOT_SPECIFIED
    rw [hst]
    exact dictGet_not_mem _ _ _ hnm
  · intro kv hmem off st
    simp only [inlineSevPairs, List.mem_cons, List.not_mem_nil, or_false] at hmem
    rcases hmem with rfl | rfl | rfl | rfl | rfl | rfl | rfl <;> rfl
  · intro off st
    rfl
  · intro off st v hnm
    simp only [inlineSevPairs, List.map_cons, List.map_nil, List.mem_cons,
      List.not_mem_nil, or_false] at hnm
    push_neg at hnm
    obtain ⟨n1, n2, n3, n4, n5, n6, n7⟩ := hnm
    have hsplit : findSplit sepCS ("Severity: " ++ v).data =
      some ("Severity".data, v.data) := rfl
    have hne : (("Severity: " ++ v) == "") = false := rfl
    have hk : keyOf ("Severity: " ++ v) = "Severity" := by
      unfold keyOf
      rw [hsplit]
      rfl
    have hv2 : valTailOf ("Severity: " ++ v) = some v := by
      unfold valTailOf
      rw [hsplit]
    unfold procLine
    rw [hne, hk, hv2]
    show procLineCore off st "Severity" (some v) = .ok st
    unfold procLineCore
    have e1 : (v == "Major") = false := by simpa using n1
    have e2 : (v == "Minor") = false := by simpa using n2
    have e3 : (v == "Critical") = false := by simpa using n3
    have e4 : (v == "Degraded") = false := by simpa using n4
    have e5 : (v == "Fatal") = false := by simpa using n5
    have e6 : (v == "Informational") = false := by simpa using n6
    have e7 : (v == "Debug") = false := by simpa using n7
    simp [sevMapInline, e1, e2, e3, e4, e5, e6, e7]
  · intro off st v hnm
    have hsplit : findSplit sepCS ("State: " ++ v).data =
      some ("State".data, v.data) := rfl
    have hne : (("State: " ++ v) == "") = false := rfl
    have hk : keyOf ("State: " ++ v) = "State" := by
      unfold keyOf
      rw [hsplit]
      rfl
    have hv2 : valTailOf ("State: " ++ v) = some v := by
      unfold valTailOf
      rw [hsplit]
    unfold procLine
    rw [hne, hk, hv2]
    show procLineCore off st "State" (some v) = .ok st
    unfold procLineCore
    have e1 : (v == "New") = false := by simpa using hnm
    simp [e1]

theorem C6_severity_category_mapping_amended_witness :
    (AlertHandler.parsedModel 0 trapOK).severity = Severity.CRITICAL ∧
    procLine 0 { acc := {}, alerts := [] } "Severity: Strange" =
      .ok { acc := {}, alerts := [] } ∧
    procLine 0 { acc := {}, alerts := [] } "Severity: Degraded" =
      .ok { acc := { severity := Severity.WARNING }, alerts := [] } :=
  ⟨C6_severity_category_mapping_amended.1 0 trapOK (AlertHandler.parsedModel 0 trapOK)
      "critical" Severity.CRITICAL (by decide) rfl (by decide),
   C6_severity_category_mapping_amended.2.2.2.2.2.2.2.1 0 { acc := {}, alerts := [] }
      "Strange" (by decide),
   C6_severity_category_mapping_amended.2.2.2.2.2.1 ("Degraded", Severity.WARNING)
      (by decide) 0 { acc := {}, alerts := [] }⟩
theorem procLine_skip (off : Int) (st : PState) (l : String)
    (h : recognizedKeys.contains (keyOf l) = false) : procLine off st l = .ok st := by
  by_cases hb : (l == "") = true
  · have hl : l = "" := by simpa using hb
    subst hl
    rfl
  · have hne : (l == "") = false := by simpa using hb
    unfold procLine
    rw [hne]
    show procLineCore off st (keyOf l) (valTailOf l) = .ok st
    simp only [recognizedKeys, List.contains_cons, Bool.or_eq_false_iff,
      List.contains_nil] at h
    unfold procLineCore
    rw [h.1, h.2.1, h.2.2.1, h.2.2.2.1, h.2.2.2.2.1, h.2.2.2.2.2.1,
      h.2.2.2.2.2.2.1, h.2.2.2.2.2.2.2.1]
    rfl

theorem procLine_err (off : Int) (st : PState) (l : String)
    (hv : valTailOf l = none) (h : recognizedKeys.contains (keyOf l) = true) :
    procLine off st l = .error () := by
  have hne : (l == "") = false := by
    by_cases hb : (l == "") = true
    · have hl : l = "" := by simpa using hb
      subst hl
      exact absurd h (by decide)
    · simpa using hb
  unfold procLine
  rw [hne]
  show procLineCore off st (keyOf l) (valTailOf l) = .error ()
  simp only [recognizedKeys, List.contains_cons, Bool.or_eq_true,
    List.contains_nil, Bool.false_eq_true, or_false, beq_iff_eq] at h
  unfold procLineCore
  rw [hv]
  rcases h with h | h | h | h | h | h | h | h <;> rw [h] <;> rfl

theorem procLine_body (off : Int) (a : AccState) (A : List AlertModel) (l : String)
    (h : isBodyLine l = true) :
    procLine off { acc := a, alerts := A } l = .ok { acc := accStep a l, alerts := A } := by
  by_cases hb : (l == "") = true
  · have hl : l = "" := by simpa using hb
    subst hl
    rfl
  · have hne : (l == "") = false := by simpa using hb
    unfold isBodyLine at h
    rw [hne] at h
    simp only [Bool.false_or, Bool.or_eq_true, Bool.not_eq_true',
      Bool.and_eq_true, Option.isSome_iff_exists] at h
    by_cases hc : recognizedKeys.contains (keyOf l) = false
    · have h1 := procLine_skip off { acc := a, alerts := A } l hc
      have h2 := procLine_skip 0 { acc := a, alerts := [] } l hc
      rw [h1]
      unfold accStep
      rw [h2]
    · rcases h with h | ⟨hk, v, hv⟩
      · exact absurd h hc
      · rw [Bool.not_eq_false] at hc
        have hlne : procLine off { acc := a, alerts := A } l =
            procLineCore off { acc := a, alerts := A } (keyOf l) (valTailOf l) := by
          unfold procLine
          rw [hne]
          rfl
        have hstep : accStep a l =
            match procLineCore 0 { acc := a, alerts := [] } (keyOf l) (valTailOf l) with
            | .ok st => st.acc
            | .error _ => a := by
          unfold accStep procLine
          rw [hne]
          rfl
        rw [hlne, hstep, hv]
        simp only [recognizedKeys, List.contains_cons, Bool.or_eq_true,
          List.contains_nil, Bool.false_eq_true, or_false, beq_iff_eq] at hc
        have hk2 : ¬(keyOf l = "Component") := by simpa using hk
        rcases hc with h2 | h2 | h2 | h2 | h2 | h2 | h2 | h2 <;> rw [h2] <;>
          first
            | rfl
            | (exact absurd h2 hk2)

theorem procLine_term (off : Int) (a : AccState) (A : List AlertModel) (l : String)
    (h : isTermLine l = true) :
    procLine off { acc := a, alerts := A } l =
      .ok { acc := {},
            alerts := A ++ [flushModel off { a with component := (valTailOf l).getD "" }] } := by
  unfold isTermLine at h
  simp only [Bool.and_eq_true, beq_iff_eq, Option.isSome_iff_exists] at h
  obtain ⟨hk, v, hv⟩ := h
  have hne : (l == "") = false := by
    by_cases hb : (l == "") = true
    · have hl : l = "" := by simpa using hb
      subst hl
      exact absurd hk (by decide)
    · simpa using hb
  unfold procLine
  rw [hne, hk, hv]
  rfl

theorem procLines_append (off : Int) (ls1 ls2 : List String) (st : PState) :
    procLines off (ls1 ++ ls2) st =
      match procLines off ls1 st with
      | .error e => .error e
      | .ok st1 => procLines off ls2 st1 := by
  induction ls1 generalizing st with
  | nil => rfl
  | cons l ls ih =>
    rw [List.cons_append]
    have h1 : procLines off (l :: (ls ++ ls2)) st =
        match procLine off st l with
        | Except.error e => Except.error e
        | Except.ok st1 => procLines off (ls ++ ls2) st1 := rfl
    have h2 : procLines off (l :: ls) st =
        match procLine off st l with
        | Except.error e => Except.error e
        | Except.ok st1 => procLines off ls st1 := rfl
    rw [h1, h2]
    cases hp : procLine off st l with
    | error e => rfl
    | ok st1 => exact ih st1

theorem procLines_body (off : Int) (body : List String)
    (h : ∀ l ∈ body, isBodyLine l = true) :
    ∀ (a : AccState) (A : List AlertModel),
      procLines off body { acc := a, alerts := A } =
        .ok { acc := body.foldl accStep a, alerts := A } := by
  induction body with
  | nil => intro a A; rfl
  | cons l ls ih =>
    intro a A
    have hl := h l (List.mem_cons_self l ls)
    show (match procLine off { acc := a, alerts := A } l with
          | Except.error e => Except.error e
          | Except.ok st1 => procLines off ls st1) = _
    rw [procLine_body off a A l hl, List.foldl_cons]
    exact ih (fun x hx => h x (List.mem_cons_of_mem l hx)) (accStep a l) A

theorem procLines_block (off : Int) (b : Block) (hb : ValidBlock b)
    (A : List AlertModel) :
    procLines off (blockLines b) { acc := {}, alerts := A } =
      .ok { acc := {}, alerts := A ++ [recordOfBlock off b] } := by
  obtain ⟨hbody, hterm⟩ := hb
  unfold blockLines
  rw [procLines_append, procLines_body off b.body hbody {} A]
  show (match procLine off { acc := b.body.foldl accStep {}, alerts := A } b.term with
        | Except.error e => Except.error e
        | Except.ok st1 => procLines off [] st1) = _
  rw [procLine_term off (b.body.foldl accStep {}) A b.term hterm]
  rfl

theorem procLines_blocks (off : Int) (bs : List Block)
    (h : ∀ b ∈ bs, ValidBlock b) :
    ∀ A : List AlertModel,
      procLines off ((bs.map blockLines).flatten) { acc := {}, alerts := A } =
        .ok { acc := {}, alerts := A ++ bs.map (recordOfBlock off) } := by
  induction bs with
  | nil => intro A; simp [procLines]
  | cons b bs ih =>
    intro A
    rw [List.map_cons, List.flatten_cons, procLines_append,
      procLines_block off b (h b (List.mem_cons_self b bs)) A]
    show procLines off ((bs.map blockLines).flatten)
        { acc := {}, alerts := A ++ [recordOfBlock off b] } = _
    rw [ih (fun x hx => h x (List.mem_cons_of_mem b hx)) (A ++ [recordOfBlock off b])]
    simp

/-- C8: a response made of N complete terminal-key blocks parses without error
into exactly N alert records in input order, each built only from its own
block's lines over freshly reset accumulators, and every accumulator is empty
again after the final flush. -/
theorem C8_terminal_flush_blocks :
    ∀ (off : Int) (bs : List Block), (∀ b ∈ bs, ValidBlock b) →
      procLines off ((bs.map blockLines).flatten) { acc := {}, alerts := [] } =
        .ok { acc := {}, alerts := bs.map (recordOfBlock off) } := by
  intro off bs h
  rw [procLines_blocks off bs h []]
  rw [List.nil_append]

theorem C8_terminal_flush_blocks_witness :
    procLines 0 ((blocksTwo.map blockLines).flatten) { acc := {}, alerts := [] } =
      .ok { acc := {}, alerts := blocksTwo.map (recordOfBlock 0) } :=
  C8_terminal_flush_blocks 0 blocksTwo (by decide)

/-- C7 (counterexample): with a healthy transport, a single line that lacks
the separator but spells a recognized key aborts the whole batch with
StorageBackendException, even though a well-formed record follows; the same
input without that line parses fine. -/
theorem C7_list_alerts_malformed_key_line_aborts :
    AlertHandler.list_alerts 0 (.ok "Id\nSeverity: Major\nComponent: c1") =
      .error .backendException ∧
    AlertHandler.list_alerts 0 (.ok "Severity: Major\nComponent: c1") =
      .ok [{ alert_id := some "", alert_name := some "", severity := Severity.MAJOR,
             category := "", type := EventType.EQUIPMENT_ALARM,
             sequence_number := some "", occur_time := none,
             description := some "", resource_type := DEFAULT_RESOURCE_TYPE,
             location := some "c1" }] := by
  constructor
  · rfl
  · decide

/-- C7 (amended): the loop skips any line whose space-stripped key is not in
the recognized vocabulary (including lines without the separator), leaving the
state untouched and the surviving records identical; but a separator-less line
that spells a recognized key raises IndexError and aborts the batch. -/
theorem C7_malformed_skip_amended :
    (∀ (off : Int) (st : PState) (l : String),
      recognizedKeys.contains (keyOf l) = false → procLine off st l = .ok st) ∧
    (∀ (off : Int) (st : PState) (l : String),
      valTailOf l = none → recognizedKeys.contains (keyOf l) = true →
      procLine off st l = .error ()) ∧
    (∀ (off : Int) (ls1 ls2 : List String) (g : String) (st : PState),
      recognizedKeys.contains (keyOf g) = false →
      procLines off (ls1 ++ g :: ls2) st = procLines off (ls1 ++ ls2) st) := by
  refine ⟨procLine_skip, procLine_err, ?_⟩
  intro off ls1 ls2 g st hg
  rw [procLines_append, procLines_append]
  cases hp : procLines off ls1 st with
  | error e => rfl
  | ok st1 =>
    show (match procLine off st1 g with
          | Except.error e => Except.error e
          | Except.ok st2 => procLines off ls2 st2) = _
    rw [procLine_skip off st1 g hg]

theorem C7_malformed_skip_amended_witness :
    procLine 0 { acc := {}, alerts := [] } "-- header --" = .ok { acc := {}, alerts := [] } ∧
    procLine 0 { acc := {}, alerts := [] } "Id" = .error () ∧
    procLines 0 (["Severity: Major", "-- header --", "Component: c1"])
        { acc := {}, alerts := [] } =
      procLines 0 (["Severity: Major", "Component: c1"]) { acc := {}, alerts := [] } :=
  ⟨C7_malformed_skip_amended.1 0 { acc := {}, alerts := [] } "-- header --" (by decide),
   C7_malformed_skip_amended.2.1 0 { acc := {}, alerts := [] } "Id" (by decide) (by decide),
   C7_malformed_skip_amended.2.2 0 ["Severity: Major"] ["Component: c1"] "-- header --"
     { acc := {}, alerts := [] } (by decide)⟩
theorem isDigit_digitChar (k : Nat) (h : k ≤ 9) : (Char.ofNat (48 + k)).isDigit = true := by
  interval_cases k <;> decide

theorem digitVal_digitChar (k : Nat) (h : k ≤ 9) : digitVal (Char.ofNat (48 + k)) = k := by
  interval_cases k <;> decide

theorem not_ws_digitChar (k : Nat) (h : k ≤ 9) :
    (Char.ofNat (48 + k)).isWhitespace = false := by
  interval_cases k <;> decide

theorem not_digit_digitChar_sep : ('-' : Char).isDigit = false ∧
    (' ' : Char).isDigit = false ∧ (':' : Char).isDigit = false := by decide

theorem pad2_all_digit (n : Nat) (h : n ≤ 99) : ∀ c ∈ pad2 n, c.isDigit = true := by
  intro c hc
  unfold pad2 at hc
  simp only [List.mem_cons, List.not_mem_nil, or_false] at hc
  rcases hc with rfl | rfl
  · exact isDigit_digitChar _ (by omega)
  · exact isDigit_digitChar _ (by omega)

theorem pad4_all_digit (n : Nat) (h : n ≤ 9999) : ∀ c ∈ pad4 n, c.isDigit = true := by
  intro c hc
  unfold pad4 at hc
  simp only [List.mem_cons, List.not_mem_nil, or_false] at hc
  rcases hc with rfl | rfl | rfl | rfl
  · exact isDigit_digitChar _ (by omega)
  · exact isDigit_digitChar _ (by omega)
  · exact isDigit_digitChar _ (by omega)
  · exact isDigit_digitChar _ (by omega)

theorem digitsToNat_pad2 (n : Nat) (h : n ≤ 99) : digitsToNat (pad2 n) = n := by
  unfold digitsToNat pad2
  rw [List.foldl_cons, List.foldl_cons, List.foldl_nil]
  rw [digitVal_digitChar _ (by omega : n / 10 ≤ 9), digitVal_digitChar _ (by omega : n % 10 ≤ 9)]
  omega

theorem digitsToNat_pad4 (n : Nat) (h : n ≤ 9999) : digitsToNat (pad4 n) = n := by
  unfold digitsToNat pad4
  rw [List.foldl_cons, List.foldl_cons, List.foldl_cons, List.foldl_cons, List.foldl_nil]
  rw [digitVal_digitChar _ (by omega : n / 1000 ≤ 9),
    digitVal_digitChar _ (by omega : n / 100 % 10 ≤ 9),
    digitVal_digitChar _ (by omega : n / 10 % 10 ≤ 9),
    digitVal_digitChar _ (by omega : n % 10 ≤ 9)]
  omega

theorem takeWhile_digit_append (ds : List Char) (sep : Char) (rest : List Char)
    (h1 : ∀ c ∈ ds, c.isDigit = true) (h2 : sep.isDigit = false) :
    (ds ++ sep :: rest).takeWhile Char.isDigit = ds := by
  induction ds with
  | nil => simp [List.takeWhile_cons, h2]
  | cons c cs ih =>
    rw [List.cons_append, List.takeWhile_cons, h1 c (List.mem_cons_self c cs)]
    rw [ih (fun x hx => h1 x (List.mem_cons_of_mem c hx))]
    rfl

theorem dropWhile_digit_append (ds : List Char) (sep : Char) (rest : List Char)
    (h1 : ∀ c ∈ ds, c.isDigit = true) (h2 : sep.isDigit = false) :
    (ds ++ sep :: rest).dropWhile Char.isDigit = sep :: rest := by
  induction ds with
  | nil => simp [List.dropWhile_cons, h2]
  | cons c cs ih =>
    rw [List.cons_append, List.dropWhile_cons, h1 c (List.mem_cons_self c cs)]
    exact ih (fun x hx => h1 x (List.mem_cons_of_mem c hx))

theorem parseField_exact (ds : List Char) (sep : Char) (rest : List Char)
    (minLen maxLen lo hi : Nat)
    (hd : ∀ c ∈ ds, c.isDigit = true) (hsep : sep.isDigit = false)
    (h1 : minLen ≤ ds.length) (h2 : ds.length ≤ maxLen)
    (hlo : lo ≤ digitsToNat ds) (hhi : digitsToNat ds ≤ hi) :
    parseField (ds ++ sep :: rest) minLen maxLen lo hi = some (digitsToNat ds, sep :: rest) := by
  unfold parseField takeDigitRun
  rw [takeWhile_digit_append ds sep rest hd hsep, dropWhile_digit_append ds sep rest hd hsep]
  have hc1 : (decide (ds.length < minLen) || decide (maxLen < ds.length)) = false := by
    simp only [Bool.or_eq_false_iff, decide_eq_false_iff_not, Nat.not_lt]
    exact ⟨h1, h2⟩
  have hc2 : (decide (lo ≤ digitsToNat ds) && decide (digitsToNat ds ≤ hi)) = true := by
    simp [hlo, hhi]
  show (if (decide (ds.length < minLen) || decide (maxLen < ds.length)) = true then none
        else if (decide (lo ≤ digitsToNat ds) && decide (digitsToNat ds ≤ hi)) = true
          then some (digitsToNat ds, sep :: rest) else none) =
      some (digitsToNat ds, sep :: rest)
  rw [hc1, hc2]
  rfl

theorem expectWs_space (c : Char) (cs : List Char) (h : c.isWhitespace = false) :
    expectWs (' ' :: c :: cs) = some (c :: cs) := by
  show some (List.dropWhile Char.isWhitespace (c :: cs)) = some (c :: cs)
  rw [List.dropWhile_cons, h]
  rfl
theorem expectChar_cons (c : Char) (r : List Char) : expectChar c (c :: r) = some r := by
  unfold expectChar
  simp

theorem strptimeList_format (y mo d h mi s : Nat) (hy : y ≤ 9999)
    (hmo1 : 1 ≤ mo) (hmo : mo ≤ 12) (hd1 : 1 ≤ d) (hd : d ≤ 31)
    (hh : h ≤ 23) (hmi : mi ≤ 59) (hs : s ≤ 61) :
    strptimeList (pad4 y ++ '-' :: (pad2 mo ++ '-' :: (pad2 d ++ ' ' ::
      (pad2 h ++ ':' :: (pad2 mi ++ ':' ::
        (pad2 s ++ ' ' :: ('C' :: 'S' :: 'T' :: []))))))) =
    some (y, mo, d, h, mi, s) := by
  have e1 : parseField (pad4 y ++ '-' :: (pad2 mo ++ '-' :: (pad2 d ++ ' ' ::
      (pad2 h ++ ':' :: (pad2 mi ++ ':' ::
        (pad2 s ++ ' ' :: ('C' :: 'S' :: 'T' :: []))))))) 4 4 0 9999 =
      some (y, '-' :: (pad2 mo ++ '-' :: (pad2 d ++ ' ' ::
        (pad2 h ++ ':' :: (pad2 mi ++ ':' ::
          (pad2 s ++ ' ' :: ('C' :: 'S' :: 'T' :: []))))))) := by
    rw [parseField_exact _ _ _ 4 4 0 9999 (pad4_all_digit y hy) (by decide)
      (by simp [pad4]) (by simp [pad4]) (Nat.zero_le _)
      (by rw [digitsToNat_pad4 y hy]; exact hy)]
    rw [digitsToNat_pad4 y hy]
  have e2 : parseField (pad2 mo ++ '-' :: (pad2 d ++ ' ' ::
      (pad2 h ++ ':' :: (pad2 mi ++ ':' ::
        (pad2 s ++ ' ' :: ('C' :: 'S' :: 'T' :: [])))))) 1 2 1 12 =
      some (mo, '-' :: (pad2 d ++ ' ' :: (pad2 h ++ ':' :: (pad2 mi ++ ':' ::
        (pad2 s ++ ' ' :: ('C' :: 'S' :: 'T' :: [])))))) := by
    rw [parseField_exact _ _ _ 1 2 1 12 (pad2_all_digit mo (by omega)) (by decide)
      (by simp [pad2]) (by simp [pad2])
      (by rw [digitsToNat_pad2 mo (by omega)]; exact hmo1)
      (by rw [digitsToNat_pad2 mo (by omega)]; exact hmo)]
    rw [digitsToNat_pad2 mo (by omega)]
  have e3 : parseField (pad2 d ++ ' ' :: (pad2 h ++ ':' :: (pad2 mi ++ ':' ::
      (pad2 s ++ ' ' :: ('C' :: 'S' :: 'T' :: []))))) 1 2 1 31 =
      some (d, ' ' :: (pad2 h ++ ':' :: (pad2 mi ++ ':' ::
        (pad2 s ++ ' ' :: ('C' :: 'S' :: 'T' :: []))))) := by
    rw [parseField_exact _ _ _ 1 2 1 31 (pad2_all_digit d (by omega)) (by decide)
      (by simp [pad2]) (by simp [pad2])
      (by rw [digitsToNat_pad2 d (by omega)]; exact hd1)
      (by rw [digitsToNat_pad2 d (by omega)]; exact hd)]
    rw [digitsToNat_pad2 d (by omega)]
  have ew1 : expectWs (' ' :: (pad2 h ++ ':' :: (pad2 mi ++ ':' ::
      (pad2 s ++ ' ' :: ('C' :: 'S' :: 'T' :: []))))) =
      some (pad2 h ++ ':' :: (pad2 mi ++ ':' ::
        (pad2 s ++ ' ' :: ('C' :: 'S' :: 'T' :: [])))) :=
    expectWs_space (Char.ofNat (48 + h / 10))
      (Char.ofNat (48 + h % 10) :: ':' :: (pad2 mi ++ ':' ::
        (pad2 s ++ ' ' :: ('C' :: 'S' :: 'T' :: []))))
      (not_ws_digitChar _ (by omega))
  have e4 : parseField (pad2 h ++ ':' :: (pad2 mi ++ ':' ::
      (pad2 s ++ ' ' :: ('C' :: 'S' :: 'T' :: [])))) 1 2 0 23 =
      some (h, ':' :: (pad2 mi ++ ':' ::
        (pad2 s ++ ' ' :: ('C' :: 'S' :: 'T' :: [])))) := by
    rw [parseField_exact _ _ _ 1 2 0 23 (pad2_all_digit h (by omega)) (by decide)
      (by simp [pad2]) (by simp [pad2]) (Nat.zero_le _)
      (by rw [digitsToNat_pad2 h (by omega)]; exact hh)]
    rw [digitsToNat_pad2 h (by omega)]
  have e5 : parseField (pad2 mi ++ ':' ::
      (pad2 s ++ ' ' :: ('C' :: 'S' :: 'T' :: []))) 1 2 0 59 =
      some (mi, ':' :: (pad2 s ++ ' ' :: ('C' :: 'S' :: 'T' :: []))) := by
    rw [parseField_exact _ _ _ 1 2 0 59 (pad2_all_digit mi (by omega)) (by decide)
      (by simp [pad2]) (by simp [pad2]) (Nat.zero_le _)
      (by rw [digitsToNat_pad2 mi (by omega)]; exact hmi)]
    rw [digitsToNat_pad2 mi (by omega)]
  have e6 : parseField (pad2 s ++ ' ' :: ('C' :: 'S' :: 'T' :: [])) 1 2 0 61 =
      some (s, ' ' :: ('C' :: 'S' :: 'T' :: [])) := by
    rw [parseField_exact _ _ _ 1 2 0 61 (pad2_all_digit s (by omega)) (by decide)
      (by simp [pad2]) (by simp [pad2]) (Nat.zero_le _)
      (by rw [digitsToNat_pad2 s (by omega)]; exact hs)]
    rw [digitsToNat_pad2 s (by omega)]
  have ew2 : expectWs (' ' :: ('C' :: 'S' :: 'T' :: [])) =
      some ('C' :: 'S' :: 'T' :: []) := by decide
  have eci : expectCI ['C', 'S', 'T'] ('C' :: 'S' :: 'T' :: []) = some [] := by decide
  unfold strptimeList
  simp only [e1, expectChar_cons, e2, e3, ew1, e4, e5, e6, ew2, eci]
  rfl

theorem strptimeCST_format (y mo d h mi s : Nat) (hy : y ≤ 9999)
    (hmo1 : 1 ≤ mo) (hmo : mo ≤ 12) (hd1 : 1 ≤ d) (hd : d ≤ 31)
    (hh : h ≤ 23) (hmi : mi ≤ 59) (hs : s ≤ 61) :
    strptimeCST (formatTimeCST y mo d h mi s) = some (y, mo, d, h, mi, s) :=
  strptimeList_format y mo d h mi s hy hmo1 hmo hd1 hd hh hmi hs

/-- C9: a vendor timestamp in the fixed TIME_PATTERN rendering parses to
exactly the epoch milliseconds of its civil fields under the host timezone
offset applied by mktime; a missing or unparsable timestamp yields none, and
the function is total, so no exception can escape. -/
theorem C9_get_time_stamp :
    (∀ (off : Int) (y mo d h mi s : Nat), 1970 ≤ y → y ≤ 9999 → 1 ≤ mo → mo ≤ 12 →
      1 ≤ d → d ≤ 31 → h ≤ 23 → mi ≤ 59 → s ≤ 61 →
      AlertHandler.get_time_stamp off (some (formatTimeCST y mo d h mi s)) =
        some (mktimeSec off y mo d h mi s * 1000)) ∧
    AlertHandler.get_time_stamp 0 (some "2020-06-20 09:06:13 CST") =
      some 1592643973000 ∧
    (∀ off : Int, AlertHandler.get_time_stamp off none = none) ∧
    (∀ (off : Int) (str : String), strptimeCST str = none →
      AlertHandler.get_time_stamp off (some str) = none) ∧
    (∀ off : Int,
      AlertHandler.get_time_stamp off (some "2020/06/20 09:06:13 CST") = none) := by
  refine ⟨?_, by decide, fun off => rfl, ?_, fun off => rfl⟩
  · intro off y mo d h mi s hy1970 hy hmo1 hmo hd1 hd hh hmi hs
    show (match strptimeCST (formatTimeCST y mo d h mi s) with
          | none => none
          | some (y, mo, d, h, mi, sec) => some (mktimeSec off y mo d h mi sec * 1000)) =
        some (mktimeSec off y mo d h mi s * 1000)
    rw [strptimeCST_format y mo d h mi s hy hmo1 hmo hd1 hd hh hmi hs]
  · intro off str hstr
    show (match strptimeCST str with
          | none => none
          | some (y, mo, d, h, mi, sec) => some (mktimeSec off y mo d h mi sec * 1000)) =
        none
    rw [hstr]

theorem C9_get_time_stamp_witness :
    AlertHandler.get_time_stamp 0 (some (formatTimeCST 2020 6 20 9 6 13)) =
      some (mktimeSec 0 2020 6 20 9 6 13 * 1000) :=
  C9_get_time_stamp.1 0 2020 6 20 9 6 13 (by decide) (by decide) (by decide)
    (by decide) (by decide) (by decide) (by decide) (by decide) (by decide)
end Delfin
